import Mathlib

/-!
Verification of the Connection Resolution & Fallback Engine of quick-cli
(src/main.rs), shallowly embedded in Lean 4.

Modelling conventions:
* A VM definition's text is represented as its list of lines, each a list of
  characters (Rust iterates contents.lines()); an unreadable file is None.
* u16 parsing, splitting, find/rfind and slicing are reimplemented over
  List Char, mirroring the byte-level Rust operations (all the characters the
  code inspects are one-byte, so char indices coincide with byte indices at
  every position the code compares).
* A Rust panic (slice out of range, Option::unwrap on None) is modelled as a
  distinguished result constructor or as Option.none, as noted per function.
* Process spawning is an oracle env : Cmd -> Bool (true = spawn succeeded);
  spawned children have a positive pid, so the id() > 0 test in
  connect_spice_linux is equivalent to spawn success.
* The log sink is modelled by returning the list of appended lines in order.
-/

namespace QuickCli

/-- One external command invocation: program name plus argument list,
    as assembled by Command::new(prog).arg(...)... in src/main.rs. -/
structure Cmd where
  prog : String
  args : List String
deriving DecidableEq, Repr

/-- The RemoteProtocol enum of src/main.rs (ports are u16 values,
    represented as Nat; parse_u16 only produces values below 65536). -/
inductive RemoteProtocol where
  | Rdp (port : Nat)
  | Vnc (port : Nat)
  | Spice (port : Nat)
deriving DecidableEq, Repr

/-- Result of running parse_vm_config: either a protocol, or a Rust panic
    (the slice line[start+1..end] with start+1 > end aborts the process). -/
inductive ParseResult where
  | ok (p : RemoteProtocol)
  | panicked
deriving DecidableEq, Repr

/-- Rust str::parse::<u16>: an optional leading plus sign, then one or more
    decimal digits, value at most 65535; anything else is Err. -/
def parse_u16 (s : List Char) : Option Nat :=
  let digits := match s with
    | '+' :: rest => rest
    | _ => s
  if digits = [] then none
  else if digits.all Char.isDigit then
    let v := digits.foldl (fun acc c => acc * 10 + (c.toNat - '0'.toNat)) 0
    if v ≤ 65535 then some v else none
  else none

/-- Rust str::split(c): the fragments between occurrences of c, empty
    fragments included ("" splits to [""]). -/
def splitOnChar (c : Char) : List Char → List (List Char)
  | [] => [[]]
  | x :: xs =>
    let r := splitOnChar c xs
    if x = c then [] :: r
    else
      match r with
      | y :: ys => (x :: y) :: ys
      | [] => [[x]]

/-- Index of the first occurrence of c (Rust str::find on a char pattern). -/
def findIdx? (c : Char) : List Char → Option Nat
  | [] => none
  | x :: xs =>
    if x = c then some 0 else (findIdx? c xs).map (· + 1)

/-- Index of the last occurrence of c (Rust str::rfind on a char pattern). -/
def rfindIdx? (c : Char) : List Char → Option Nat
  | [] => none
  | x :: xs =>
    match rfindIdx? c xs with
    | some i => some (i + 1)
    | none => if x = c then some 0 else none

/-- Rust str::contains on a string pattern: the needle occurs contiguously
    in the haystack. -/
def containsSub (needle : List Char) : List Char → Bool
  | [] => needle.isEmpty
  | y :: ys => needle.isPrefixOf (y :: ys) || containsSub needle ys

/-- The literal marker substring looked for by parse_vm_config. -/
def port_forwards_marker : List Char := "port_forwards".toList

/-- One step of the mapping loop in parse_vm_config: split the fragment on
    a colon; with exactly two pieces and a guest port parsing to 3389 (resp.
    5900) and a parsable host port, the loop returns Rdp (resp. Vnc); in every
    other case it falls through to the next fragment (None here). -/
def recognizeMapping (m : List Char) : Option RemoteProtocol :=
  match splitOnChar ':' m with
  | [hostS, guestS] =>
    match parse_u16 guestS with
    | some g =>
      if g = 3389 then (parse_u16 hostS).map RemoteProtocol.Rdp
      else if g = 5900 then (parse_u16 hostS).map RemoteProtocol.Vnc
      else none
    | none => none
  | _ => none

/-- The for mapping in parts loop of parse_vm_config: first recognized
    fragment wins; None when the whole list falls through. -/
def scanMappings : List (List Char) → Option RemoteProtocol
  | [] => none
  | m :: rest =>
    match recognizeMapping m with
    | some p => some p
    | none => scanMappings rest

/-- Outcome of handling one line of the definition inside the line loop of
    parse_vm_config. -/
inductive LineScan where
  | noMatch
  | panic
  | found (p : RemoteProtocol)
deriving DecidableEq, Repr

/-- Extraction of the quote-delimited fragments of one line, per
    parse_vm_config: when the line contains the marker and both a first
    opening and a last closing parenthesis, Rust slices
    line[start+1..end] (a panic when start+1 > end, i.e. when the last
    closing parenthesis precedes the first opening one), splits the slice on
    double quotes and keeps the fragments that are not whitespace-only. -/
inductive LineParts where
  | noLine
  | panic
  | parts (ps : List (List Char))
deriving DecidableEq, Repr

def lineParts (line : List Char) : LineParts :=
  if containsSub port_forwards_marker line then
    match findIdx? '(' line, rfindIdx? ')' line with
    | some s, some e =>
      if e < s + 1 then LineParts.panic
      else
        let forwards := (line.drop (s + 1)).take (e - (s + 1))
        LineParts.parts
          ((splitOnChar '"' forwards).filter (fun f => !f.all Char.isWhitespace))
    | _, _ => LineParts.noLine
  else LineParts.noLine

/-- Handling of one line inside parse_vm_config's loop: a line without the
    marker or without parentheses, or whose fragments are all unrecognized,
    lets the loop continue with the next line. -/
def scanLine (line : List Char) : LineScan :=
  match lineParts line with
  | LineParts.panic => LineScan.panic
  | LineParts.noLine => LineScan.noMatch
  | LineParts.parts ps =>
    match scanMappings ps with
    | some p => LineScan.found p
    | none => LineScan.noMatch

/-- The line loop of parse_vm_config over the lines of the file; falling off
    the end yields Spice with the configured default port. -/
def parseLines (d : Nat) : List (List Char) → ParseResult
  | [] => ParseResult.ok (RemoteProtocol.Spice d)
  | l :: rest =>
    match scanLine l with
    | LineScan.found p => ParseResult.ok p
    | LineScan.panic => ParseResult.panicked
    | LineScan.noMatch => parseLines d rest

/-- parse_vm_config of src/main.rs: contents? is the list of lines of the VM
    definition file, None when fs::read_to_string failed (an unreadable file
    classifies as Spice with the default port). -/
def parse_vm_config (contents? : Option (List (List Char))) (default_spice_port : Nat) :
    ParseResult :=
  match contents? with
  | some ls => parseLines default_spice_port ls
  | none => ParseResult.ok (RemoteProtocol.Spice default_spice_port)

/-- One entry of the Remmina profile directory as seen by read_dir in
    remmina_profile_for_vm: its full path, its file stem, its extension and
    whether it is a regular file. Entries that failed to read are absent
    (entries.flatten() in the source drops them). -/
structure FileEntry where
  path : List Char
  stem : List Char
  ext : List Char
  isFile : Bool
deriving DecidableEq, Repr

/-- The candidate filter of remmina_profile_for_vm: regular files with the
    remmina extension whose lower-cased stem contains the lower-cased VM stem
    as a substring. -/
def candidateMatches (vm_stem : List Char) (entries : List FileEntry) : List FileEntry :=
  entries.filter (fun e =>
    e.isFile && e.ext == "remmina".toList && containsSub vm_stem (e.stem.map Char.toLower))

/-- remmina_profile_for_vm of src/main.rs. vm_stem? is the file_stem of the
    VM config path (None propagates to None through the question-mark
    operator); overrides is the remmina_overrides map (an association list,
    keys already lower-cased by load_config); entries is the enumeration of
    the Remmina profile directory, in directory order (a missing home
    directory or unreadable directory is the empty enumeration, which the
    source reaches as zero matches). -/
def remmina_profile_for_vm (vm_stem? : Option (List Char))
    (overrides : List (List Char × List Char)) (entries : List FileEntry) :
    Option (List Char) :=
  match vm_stem? with
  | none => none
  | some st =>
    let vm_stem := st.map Char.toLower
    match overrides.lookup vm_stem with
    | some p => some p
    | none =>
      let ms := candidateMatches vm_stem entries
      if ms.length = 1 then ms.head?.map FileEntry.path
      else
        match ms.find? (fun e => e.stem.map Char.toLower == vm_stem) with
        | some m => some m.path
        | none => ms.head?.map FileEntry.path

/-- Metadata of the per-VM monitor socket, as consulted by the unix
    is_spice_vm_running: the file mode, and modified? = none when
    meta.modified() errs, some none when modified.elapsed() errs, and
    some (some ms) for an elapsed time of ms milliseconds. -/
structure SocketMeta where
  mode : Nat
  modified? : Option (Option Nat)
deriving DecidableEq, Repr

/-- is_spice_vm_running (unix variant) of src/main.rs. Result None models the
    panic of vm_conf.file_stem().unwrap() on a path without a stem; meta? is
    None when fs::metadata on the monitor socket path errs. The mode test
    keeps only sockets (S_IFSOCK), and the heartbeat requires the elapsed
    time since the last modification (100 seconds when the clock errs) to be
    under 10 seconds. -/
def is_spice_vm_running (vm_stem? : Option (List Char)) (meta? : Option SocketMeta) :
    Option Bool :=
  match vm_stem? with
  | none => none
  | some _ =>
    match meta? with
    | some meta =>
      if meta.mode &&& 0o170000 = 0o140000 then
        match meta.modified? with
        | some elapsed? =>
          some (decide ((elapsed?.getD 100000) < 10000))
        | none => some false
      else some false
    | none => some false

/-- The environment a connection-related call runs in: the configuration
    fields it reads, the VM definition under consideration, the profile
    store, and oracles for process spawning and TCP probing. -/
structure Ctx where
  remote_app : String
  os_type : String
  default_spice_port : Nat
  vm_path : String
  vm_stem? : Option (List Char)
  vm_lines? : Option (List (List Char))
  overrides : List (List Char × List Char)
  remmina_entries : List FileEntry
  env : Cmd → Bool
  portOpen : Nat → Bool
  meta? : Option SocketMeta

/-- Profile resolution as invoked with the fields of a context. -/
def resolve (ctx : Ctx) : Option (List Char) :=
  remmina_profile_for_vm ctx.vm_stem? ctx.overrides ctx.remmina_entries

/-- is_vm_running of src/main.rs: RDP/VNC probe the host port over TCP,
    SPICE consults the monitor socket heartbeat. None models a panic
    (the classifier's slice panic, or the stem unwrap in the SPICE probe). -/
def is_vm_running (ctx : Ctx) : Option Bool :=
  match parse_vm_config ctx.vm_lines? ctx.default_spice_port with
  | ParseResult.panicked => none
  | ParseResult.ok (RemoteProtocol.Rdp port) => some (ctx.portOpen port)
  | ParseResult.ok (RemoteProtocol.Vnc port) => some (ctx.portOpen port)
  | ParseResult.ok (RemoteProtocol.Spice _) => is_spice_vm_running ctx.vm_stem? ctx.meta?

/-- Result of one connect helper: whether it reported success, the log lines
    it appended (in order), and the commands it attempted to spawn (in
    order). -/
def StepResult := Bool × List String × List Cmd

/-- connect_rdp_windows of src/main.rs. -/
def connect_rdp_windows (host_port : Nat) (ctx : Ctx) : Bool × List String × List Cmd :=
  let l := "Connecting via Windows RDP to port " ++ toString host_port
  let c : Cmd := ⟨"mstsc.exe", ["/v:127.0.0.1:" ++ toString host_port]⟩
  (ctx.env c, [l], [c])

/-- connect_rdp_macos of src/main.rs. -/
def connect_rdp_macos (host_port : Nat) (ctx : Ctx) : Bool × List String × List Cmd :=
  let l := "Connecting via macOS RDP (Microsoft Remote Desktop)"
  let c : Cmd := ⟨"open", ["rdp://127.0.0.1:" ++ toString host_port]⟩
  (ctx.env c, [l], [c])

/-- The tail of connect_rdp_linux after the optional profile step: the
    Remmina RDP-URL attempt, then the xfreerdp attempt. -/
def connect_rdp_linux_rest (host_port : Nat) (ctx : Ctx)
    (logs : List String) (atts : List Cmd) : Bool × List String × List Cmd :=
  let url := "rdp://127.0.0.1:" ++ toString host_port
  let c2 : Cmd := ⟨ctx.remote_app, ["--quiet", "-p", "rdp", url]⟩
  let l2 := "Connecting via RDP URL: " ++ url
  if ctx.env c2 then (true, logs ++ [l2], atts ++ [c2])
  else
    let c3 : Cmd := ⟨"xfreerdp",
      ["/v:127.0.0.1:" ++ toString host_port, "/f", "/dynamic-resolution"]⟩
    (ctx.env c3, logs ++ [l2], atts ++ [c2, c3])

/-- connect_rdp_linux of src/main.rs: an optional Remmina-profile attempt,
    then the RDP URL attempt, then xfreerdp. -/
def connect_rdp_linux (host_port : Nat) (ctx : Ctx) : Bool × List String × List Cmd :=
  match resolve ctx with
  | some p =>
    let l1 := "Connecting using Remmina profile: " ++ String.mk p
    let c1 : Cmd := ⟨ctx.remote_app, ["--quiet", "-c", String.mk p]⟩
    if ctx.env c1 then (true, [l1], [c1])
    else connect_rdp_linux_rest host_port ctx [l1] [c1]
  | none => connect_rdp_linux_rest host_port ctx [] []

/-- connect_vnc_windows of src/main.rs: tvnviewer then vncviewer. -/
def connect_vnc_windows (host_port : Nat) (ctx : Ctx) : Bool × List String × List Cmd :=
  let l := "Connecting via Windows VNC to port " ++ toString host_port
  let c1 : Cmd := ⟨"tvnviewer", ["127.0.0.1:" ++ toString host_port]⟩
  if ctx.env c1 then (true, [l], [c1])
  else
    let c2 : Cmd := ⟨"vncviewer", ["127.0.0.1:" ++ toString host_port]⟩
    (ctx.env c2, [l], [c1, c2])

/-- connect_vnc_macos of src/main.rs. -/
def connect_vnc_macos (host_port : Nat) (ctx : Ctx) : Bool × List String × List Cmd :=
  let l := "Connecting via macOS Screen Sharing (VNC)"
  let c : Cmd := ⟨"open", ["vnc://127.0.0.1:" ++ toString host_port]⟩
  (ctx.env c, [l], [c])

/-- The tail of connect_vnc_linux after the optional profile step: the
    Remmina VNC-URL attempt, then the vncviewer attempt. -/
def connect_vnc_linux_rest (host_port : Nat) (ctx : Ctx)
    (logs : List String) (atts : List Cmd) : Bool × List String × List Cmd :=
  let url := "vnc://127.0.0.1:" ++ toString host_port
  let c2 : Cmd := ⟨ctx.remote_app, ["--quiet", "-p", "vnc", url]⟩
  let l2 := "Connecting via VNC URL: " ++ url
  if ctx.env c2 then (true, logs ++ [l2], atts ++ [c2])
  else
    let c3 : Cmd := ⟨"vncviewer", ["127.0.0.1:" ++ toString host_port]⟩
    (ctx.env c3, logs ++ [l2], atts ++ [c2, c3])

/-- connect_vnc_linux of src/main.rs: an optional Remmina-profile attempt,
    then the VNC URL attempt, then vncviewer. -/
def connect_vnc_linux (host_port : Nat) (ctx : Ctx) : Bool × List String × List Cmd :=
  match resolve ctx with
  | some p =>
    let l1 := "Connecting using Remmina profile: " ++ String.mk p
    let c1 : Cmd := ⟨ctx.remote_app, ["--quiet", "-c", String.mk p]⟩
    if ctx.env c1 then (true, [l1], [c1])
    else connect_vnc_linux_rest host_port ctx [l1] [c1]
  | none => connect_vnc_linux_rest host_port ctx [] []

/-- connect_spice_windows of src/main.rs: a header log line, an optional
    profile attempt, then virt-viewer. -/
def connect_spice_windows (spice_port : Nat) (ctx : Ctx) : Bool × List String × List Cmd :=
  let l0 := "Connecting via SPICE on Windows to port " ++ toString spice_port
  let cv : Cmd := ⟨"virt-viewer", ["spice://127.0.0.1:" ++ toString spice_port]⟩
  match resolve ctx with
  | some p =>
    let l1 := "Using override Remmina profile for SPICE: " ++ String.mk p
    let c1 : Cmd := ⟨ctx.remote_app, ["-c", String.mk p]⟩
    if ctx.env c1 then (true, [l0, l1], [c1])
    else (ctx.env cv, [l0, l1], [c1, cv])
  | none => (ctx.env cv, [l0], [cv])

/-- connect_spice_macos of src/main.rs: a header log line, an optional
    profile attempt, then a spice URL open. -/
def connect_spice_macos (spice_port : Nat) (ctx : Ctx) : Bool × List String × List Cmd :=
  let l0 := "Connecting via SPICE on macOS using Remote Viewer"
  let cv : Cmd := ⟨"open", ["spice://127.0.0.1:" ++ toString spice_port]⟩
  match resolve ctx with
  | some p =>
    let l1 := "Using override Remmina profile for SPICE: " ++ String.mk p
    let c1 : Cmd := ⟨ctx.remote_app, ["-c", String.mk p]⟩
    if ctx.env c1 then (true, [l0, l1], [c1])
    else (ctx.env cv, [l0, l1], [c1, cv])
  | none => (ctx.env cv, [l0], [cv])

/-- connect_spice_linux of src/main.rs: Remmina with the spice URL (a spawned
    child's pid is positive, so the id() > 0 guard equals spawn success),
    then spicy with the VM stem as window title, then remote-viewer. A
    failure log line is appended after the first and after the second failed
    attempt; the third failure is reported only through the return value. -/
def connect_spice_linux (spice_port : Nat) (stem : List Char) (ctx : Ctx) :
    Bool × List String × List Cmd :=
  let c1 : Cmd := ⟨ctx.remote_app,
    ["--quiet", "-p", "spice", "spice://127.0.0.1:" ++ toString spice_port]⟩
  if ctx.env c1 then (true, [], [c1])
  else
    let l1 := "Remmina SPICE launch failed, trying spicy..."
    let c2 : Cmd := ⟨"spicy",
      ["--title", String.mk stem, "-h", "127.0.0.1", "-p", toString spice_port]⟩
    if ctx.env c2 then (true, [l1], [c1, c2])
    else
      let l2 := "spicy launch failed, trying remote-viewer..."
      let c3 : Cmd := ⟨"remote-viewer", ["spice://127.0.0.1:" ++ toString spice_port]⟩
      (ctx.env c3, [l1, l2], [c1, c2, c3])

/-- The per-platform RDP cascade as dispatched in connect_vm (any os_type
    other than windows and macos takes the linux branch). -/
def rdp_cascade (host_port : Nat) (ctx : Ctx) : Bool × List String × List Cmd :=
  if ctx.os_type = "windows" then connect_rdp_windows host_port ctx
  else if ctx.os_type = "macos" then connect_rdp_macos host_port ctx
  else connect_rdp_linux host_port ctx

/-- The per-platform VNC cascade as dispatched in connect_vm. -/
def vnc_cascade (host_port : Nat) (ctx : Ctx) : Bool × List String × List Cmd :=
  if ctx.os_type = "windows" then connect_vnc_windows host_port ctx
  else if ctx.os_type = "macos" then connect_vnc_macos host_port ctx
  else connect_vnc_linux host_port ctx

/-- The per-platform SPICE cascade as dispatched in connect_vm and
    force_spice_connect. -/
def spice_cascade (spice_port : Nat) (stem : List Char) (ctx : Ctx) :
    Bool × List String × List Cmd :=
  if ctx.os_type = "windows" then connect_spice_windows spice_port ctx
  else if ctx.os_type = "macos" then connect_spice_macos spice_port ctx
  else connect_spice_linux spice_port stem ctx

/-- The protocol-specific cascade selected by the match in connect_vm. -/
def proto_cascade : RemoteProtocol → List Char → Ctx → Bool × List String × List Cmd
  | RemoteProtocol.Rdp hp, _, ctx => rdp_cascade hp ctx
  | RemoteProtocol.Vnc hp, _, ctx => vnc_cascade hp ctx
  | RemoteProtocol.Spice sp, stem, ctx => spice_cascade sp stem ctx

/-- Overall result of connect_vm: the appended log lines and attempted
    spawns, or a panic cutting the trace short. -/
inductive ConnectResult where
  | done (logs : List String) (atts : List Cmd)
  | panicked (logs : List String) (atts : List Cmd)
deriving DecidableEq, Repr

/-- The command the top of connect_vm launches for a resolved profile:
    the configured generic remote-access client with the -c flag and the
    profile path. -/
def profileCmd (remote_app : String) (p : List Char) : Cmd :=
  ⟨remote_app, ["-c", String.mk p]⟩

/-- The log line connect_vm pushes when a profile resolves. -/
def profileFoundLog (ctx : Ctx) (p : List Char) : String :=
  "Profile found for " ++ ctx.vm_path ++ ". Launching Remmina with profile: " ++ String.mk p

/-- The log line connect_vm pushes when the profile spawn fails. -/
def profileFailLog : String :=
  "Failed to launch Remmina with profile; falling back to normal connection."

/-- The part of connect_vm after the top profile attempt: unwrap the VM file
    stem (a panic when the path has none), classify the protocol (a panic
    when the classifier slices out of range), run the protocol cascade, and
    on RDP/VNC cascade failure run the SPICE cascade with the configured
    default port. logs0 and atts0 are the trace accumulated by the profile
    stage. -/
def connect_rest (ctx : Ctx) (logs0 : List String) (atts0 : List Cmd) : ConnectResult :=
  match ctx.vm_stem? with
  | none => ConnectResult.panicked logs0 atts0
  | some stem =>
    match parse_vm_config ctx.vm_lines? ctx.default_spice_port with
    | ParseResult.panicked => ConnectResult.panicked logs0 atts0
    | ParseResult.ok (RemoteProtocol.Rdp hp) =>
      let r := rdp_cascade hp ctx
      if r.1 then ConnectResult.done (logs0 ++ r.2.1) (atts0 ++ r.2.2)
      else
        let s := spice_cascade ctx.default_spice_port stem ctx
        ConnectResult.done (logs0 ++ r.2.1 ++ s.2.1) (atts0 ++ r.2.2 ++ s.2.2)
    | ParseResult.ok (RemoteProtocol.Vnc hp) =>
      let r := vnc_cascade hp ctx
      if r.1 then ConnectResult.done (logs0 ++ r.2.1) (atts0 ++ r.2.2)
      else
        let s := spice_cascade ctx.default_spice_port stem ctx
        ConnectResult.done (logs0 ++ r.2.1 ++ s.2.1) (atts0 ++ r.2.2 ++ s.2.2)
    | ParseResult.ok (RemoteProtocol.Spice sp) =>
      let s := spice_cascade sp stem ctx
      ConnectResult.done (logs0 ++ s.2.1) (atts0 ++ s.2.2)

/-- connect_vm of src/main.rs: resolve a profile first; on resolution, log
    and attempt the generic client with the profile, returning at once if
    the spawn succeeds; otherwise log the failure and fall through to the
    protocol-specific logic. -/
def connect_vm (ctx : Ctx) : ConnectResult :=
  match resolve ctx with
  | some p =>
    let c := profileCmd ctx.remote_app p
    if ctx.env c then ConnectResult.done [profileFoundLog ctx p] [c]
    else connect_rest ctx [profileFoundLog ctx p, profileFailLog] [c]
  | none => connect_rest ctx [] []

/-! Helper lemmas. -/

/-- Lines whose scan falls through do not affect the classification of the
    remaining lines. -/
theorem parseLines_skip (d : Nat) (pre rest : List (List Char))
    (h : ∀ l ∈ pre, scanLine l = LineScan.noMatch) :
    parseLines d (pre ++ rest) = parseLines d rest := by
  induction pre with
  | nil => rfl
  | cons a as ih =>
    have ha := h a (by simp)
    simp only [List.cons_append, parseLines, ha]
    exact ih (fun l hl => h l (by simp [hl]))

/-- Unrecognized fragments do not affect the mapping scan, and the first
    recognized fragment decides it. -/
theorem scanMappings_skip (ms1 : List (List Char)) (m : List Char) (ms2 : List (List Char))
    (p : RemoteProtocol)
    (h : ∀ m' ∈ ms1, recognizeMapping m' = none)
    (hrec : recognizeMapping m = some p) :
    scanMappings (ms1 ++ m :: ms2) = some p := by
  induction ms1 with
  | nil => simp [scanMappings, hrec]
  | cons a as ih =>
    have ha := h a (by simp)
    simp only [List.cons_append, scanMappings, ha]
    exact ih (fun m' hm' => h m' (by simp [hm']))

/-! Concrete inputs used by counterexamples and witnesses. -/

/-- A definition line on which the classifier's slice panics: it contains the
    marker and its last closing parenthesis precedes its first opening one,
    so Rust evaluates line[start+1..end] with start+1 greater than end. -/
def panicLine : List Char := "port_forwards ) (".toList

/-- A marker line none of whose mappings is recognized (guest port 2). -/
def lineNoHit : List Char := "port_forwards=(\"1:2\")".toList

/-- A marker line whose single mapping is host 5, guest 3389. -/
def lineRdp5 : List Char := "port_forwards=(\"5:3389\")".toList

/-- A marker line listing a 5900-guest mapping before a 3389-guest one. -/
def lineVncFirst : List Char := "port_forwards=(\"5901:5900\" \"3390:3389\")".toList

/-- A marker line with an unrecognized mapping before a 3389-guest one. -/
def lineVncRdpFree : List Char := "port_forwards=(\"1:2\" \"13389:3389\")".toList

/-! Claims about the Protocol Classifier. -/

/-- C1: the claim states that classification never fails on any input and
    always returns exactly one Protocol. The code contradicts this: on a
    definition containing a marker line whose last closing parenthesis
    precedes its first opening parenthesis, the slice line[start+1..end]
    panics (start+1 > end), aborting the process where the claim promises
    SPICE with the default port. This theorem evaluates the embedded
    classifier at that failing input. -/
theorem parse_vm_config_panics_on_reversed_parens :
    parse_vm_config (some [panicLine]) 5930 = ParseResult.panicked ∧
    ParseResult.panicked ≠ ParseResult.ok (RemoteProtocol.Spice 5930) := by
  exact ⟨by decide, by decide⟩

/-- C7 counterexample: the claim states that once a line containing the
    marker has been found, later lines are never scanned even when that line
    yields no recognized mapping, so this two-line definition would classify
    as SPICE with the default port 5930; the code instead keeps scanning and
    returns RDP 5 from the second line. -/
theorem parse_vm_config_scans_later_lines :
    parse_vm_config (some [lineNoHit, lineRdp5]) 5930 = ParseResult.ok (RemoteProtocol.Rdp 5) ∧
    ParseResult.ok (RemoteProtocol.Rdp 5) ≠ ParseResult.ok (RemoteProtocol.Spice 5930) := by
  exact ⟨by decide, by decide⟩

/-- C7 (amended): lines are scanned in order and the first line whose
    fragments yield a recognized mapping decides the protocol; a marker line
    that yields no recognized mapping does not stop the scan of later lines,
    while a line that yields one ends the scan at once. -/
theorem parse_vm_config_first_recognized_line_wins :
    (∀ (l : List Char) (rest : List (List Char)) (d : Nat),
      scanLine l = LineScan.noMatch →
      parse_vm_config (some (l :: rest)) d = parse_vm_config (some rest) d) ∧
    (∀ (l : List Char) (rest : List (List Char)) (d : Nat) (p : RemoteProtocol),
      scanLine l = LineScan.found p →
      parse_vm_config (some (l :: rest)) d = ParseResult.ok p) := by
  constructor
  · intro l rest d h
    simp [parse_vm_config, parseLines, h]
  · intro l rest d p h
    simp [parse_vm_config, parseLines, h]

/-- C7 witness: the amended line-scan behaviour at the concrete two-line
    definition of the counterexample. -/
theorem parse_vm_config_first_recognized_line_wins_witness :
    parse_vm_config (some [lineNoHit, lineRdp5]) 5930 =
      parse_vm_config (some [lineRdp5]) 5930 ∧
    parse_vm_config (some [lineRdp5]) 5930 = ParseResult.ok (RemoteProtocol.Rdp 5) :=
  ⟨parse_vm_config_first_recognized_line_wins.1 lineNoHit [lineRdp5] 5930 (by decide),
   parse_vm_config_first_recognized_line_wins.2 lineRdp5 [] 5930
     (RemoteProtocol.Rdp 5) (by decide)⟩

/-- C8 counterexample: the claim states that a definition containing a
    well-formed 3389-guest mapping classifies as RDP with its host port
    regardless of a 5900-guest mapping appearing earlier in the list; on this
    definition the code returns VNC 5901 from the earlier mapping, not
    RDP 3390. -/
theorem parse_vm_config_earlier_vnc_wins :
    parse_vm_config (some [lineVncFirst]) 5930 = ParseResult.ok (RemoteProtocol.Vnc 5901) ∧
    ParseResult.ok (RemoteProtocol.Vnc 5901) ≠ ParseResult.ok (RemoteProtocol.Rdp 3390) := by
  exact ⟨by decide, by decide⟩

/-- C8 (amended): if the first recognized mapping of the definition (in line
    order, then fragment order, skipping lines and fragments the scan falls
    through) splits as host:guest with guest parsing to 3389 and a parsable
    host port, classification returns RDP with that host port; a recognized
    mapping listed earlier (such as one with guest port 5900) takes
    precedence instead. -/
theorem parse_vm_config_first_rdp_mapping (d : Nat) (pre : List (List Char)) (l : List Char)
    (rest ms1 : List (List Char)) (m : List Char) (ms2 : List (List Char))
    (hostS guestS : List Char) (hp : Nat)
    (hpre : ∀ l' ∈ pre, scanLine l' = LineScan.noMatch)
    (hparts : lineParts l = LineParts.parts (ms1 ++ m :: ms2))
    (hms1 : ∀ m' ∈ ms1, recognizeMapping m' = none)
    (hsplit : splitOnChar ':' m = [hostS, guestS])
    (hguest : parse_u16 guestS = some 3389)
    (hhost : parse_u16 hostS = some hp) :
    parse_vm_config (some (pre ++ l :: rest)) d = ParseResult.ok (RemoteProtocol.Rdp hp) := by
  have hrec : recognizeMapping m = some (RemoteProtocol.Rdp hp) := by
    simp [recognizeMapping, hsplit, hguest, hhost]
  have hscan : scanMappings (ms1 ++ m :: ms2) = some (RemoteProtocol.Rdp hp) :=
    scanMappings_skip ms1 m ms2 _ hms1 hrec
  have hline : scanLine l = LineScan.found (RemoteProtocol.Rdp hp) := by
    simp [scanLine, hparts, hscan]
  calc parse_vm_config (some (pre ++ l :: rest)) d
      = parseLines d (pre ++ l :: rest) := rfl
    _ = parseLines d (l :: rest) := parseLines_skip d pre _ hpre
    _ = ParseResult.ok (RemoteProtocol.Rdp hp) := by simp [parseLines, hline]

/-- C8 witness: the amended statement at a concrete definition where an
    unrecognized mapping and a marker-free line precede the 3389 mapping. -/
theorem parse_vm_config_first_rdp_mapping_witness :
    parse_vm_config (some ["guest_os=\"windows\"".toList, lineVncRdpFree]) 5930 =
      ParseResult.ok (RemoteProtocol.Rdp 13389) :=
  parse_vm_config_first_rdp_mapping 5930 ["guest_os=\"windows\"".toList] lineVncRdpFree
    [] ["1:2".toList] "13389:3389".toList [] "13389".toList "3389".toList 13389
    (by decide) (by decide) (by decide) (by decide) (by decide) (by decide)

/-! Claims about liveness, profile resolution and the SPICE cascade. -/

/-- A context holding a definition file with the reversed-parenthesis line:
    no overrides, no profile entries, every spawn fails. -/
def ctxPanic : Ctx :=
  { remote_app := "remmina", os_type := "linux", default_spice_port := 5930,
    vm_path := "/home/u/.quickemu/win11.conf", vm_stem? := some "win11".toList,
    vm_lines? := some [panicLine], overrides := [], remmina_entries := [],
    env := fun _ => false, portOpen := fun _ => false, meta? := none }

/-- C9: the claim states that no input to the core operations terminates the
    controlling process and that the liveness probe and connect never panic.
    The code contradicts this: a VM definition file containing the
    reversed-parenthesis marker line makes parse_vm_config panic, so both
    is_vm_running (called once per render frame) and connect_vm abort the
    process. This theorem evaluates both embedded operations at that failing
    input (None and ConnectResult.panicked model the panic). -/
theorem is_vm_running_and_connect_vm_panic :
    is_vm_running ctxPanic = none ∧
    connect_vm ctxPanic = ConnectResult.panicked [] [] := by
  exact ⟨by decide, by decide⟩

/-- C4: an override entry for the case-folded VM stem is returned
    immediately, whatever the profile directory contains. -/
theorem remmina_override_wins (st : List Char) (overrides : List (List Char × List Char))
    (entries : List FileEntry) (p : List Char)
    (h : overrides.lookup (st.map Char.toLower) = some p) :
    remmina_profile_for_vm (some st) overrides entries = some p := by
  simp [remmina_profile_for_vm, h]

/-- The override profile path used by several witnesses. -/
def profW : List Char := "/profiles/win11.remmina".toList

/-- A profile-directory entry whose stem strictly contains win11. -/
def entW : FileEntry :=
  ⟨"/home/u/.local/share/remmina/win11-test.remmina".toList,
   "win11-test".toList, "remmina".toList, true⟩

/-- C4 witness: the override beats a substring-matching entry that exists in
    the profile directory. -/
theorem remmina_override_wins_witness :
    remmina_profile_for_vm (some "win11".toList) [("win11".toList, profW)] [entW] =
      some profW :=
  remmina_override_wins "win11".toList [("win11".toList, profW)] [entW] profW (by decide)

/-- C5: with no override, resolution over the candidates whose case-folded
    stem contains the VM stem obeys the code's tie-break: zero candidates
    give none, a single candidate is returned, a case-folded exact stem match
    (the first one) is preferred among several, and otherwise the first
    enumerated candidate is returned. -/
theorem remmina_tie_break (st : List Char) (overrides : List (List Char × List Char))
    (entries : List FileEntry)
    (hov : overrides.lookup (st.map Char.toLower) = none) :
    (candidateMatches (st.map Char.toLower) entries = [] →
      remmina_profile_for_vm (some st) overrides entries = none) ∧
    (∀ e : FileEntry, candidateMatches (st.map Char.toLower) entries = [e] →
      remmina_profile_for_vm (some st) overrides entries = some e.path) ∧
    (∀ e : FileEntry, 2 ≤ (candidateMatches (st.map Char.toLower) entries).length →
      (candidateMatches (st.map Char.toLower) entries).find?
        (fun x => x.stem.map Char.toLower == st.map Char.toLower) = some e →
      remmina_profile_for_vm (some st) overrides entries = some e.path) ∧
    (2 ≤ (candidateMatches (st.map Char.toLower) entries).length →
      (candidateMatches (st.map Char.toLower) entries).find?
        (fun x => x.stem.map Char.toLower == st.map Char.toLower) = none →
      remmina_profile_for_vm (some st) overrides entries =
        (candidateMatches (st.map Char.toLower) entries).head?.map FileEntry.path) := by
  refine ⟨?_, ?_, ?_, ?_⟩
  · intro h
    simp [remmina_profile_for_vm, hov, h]
  · intro e h
    simp [remmina_profile_for_vm, hov, h]
  · intro e hlen hfind
    have hne : (candidateMatches (st.map Char.toLower) entries).length ≠ 1 := by omega
    simp [remmina_profile_for_vm, hov, hne, hfind]
  · intro hlen hfind
    have hne : (candidateMatches (st.map Char.toLower) entries).length ≠ 1 := by omega
    simp [remmina_profile_for_vm, hov, hne, hfind]

/-- An entry whose stem strictly contains ubuntu, enumerated first. -/
def entUbuntuOld : FileEntry :=
  ⟨"/home/u/.local/share/remmina/ubuntu-old.remmina".toList,
   "ubuntu-old".toList, "remmina".toList, true⟩

/-- An entry whose stem is exactly ubuntu, enumerated second. -/
def entUbuntu : FileEntry :=
  ⟨"/home/u/.local/share/remmina/ubuntu.remmina".toList,
   "ubuntu".toList, "remmina".toList, true⟩

/-- C5 witness: among two substring matches the exact stem match is
    returned even though it is enumerated second. -/
theorem remmina_tie_break_witness :
    remmina_profile_for_vm (some "ubuntu".toList) [] [entUbuntuOld, entUbuntu] =
      some entUbuntu.path :=
  (remmina_tie_break "ubuntu".toList [] [entUbuntuOld, entUbuntu] (by decide)).2.2.1
    entUbuntu (by decide) (by decide)

/-- A linux context in which every spawn fails. -/
def ctxAllFail : Ctx :=
  { remote_app := "remmina", os_type := "linux", default_spice_port := 5930,
    vm_path := "/home/u/.quickemu/ubuntu.conf", vm_stem? := some "ubuntu".toList,
    vm_lines? := some [], overrides := [], remmina_entries := [],
    env := fun _ => false, portOpen := fun _ => false, meta? := none }

/-- C6 counterexample: the claim states that the Linux SPICE cascade with all
    three candidates unspawnable appends exactly one failure line per
    candidate, 3 in total; the code appends only 2 (no line is logged after
    the final remote-viewer failure, which is reported only through the
    return value). -/
theorem connect_spice_linux_logs_two_not_three :
    (connect_spice_linux 5930 "ubuntu".toList ctxAllFail).2.1.length = 2 ∧
    (connect_spice_linux 5930 "ubuntu".toList ctxAllFail).2.1.length ≠ 3 ∧
    (connect_spice_linux 5930 "ubuntu".toList ctxAllFail).1 = false := by
  exact ⟨by decide, by decide, by decide⟩

/-- C6 (amended): when all three candidate commands of the Linux SPICE
    cascade fail to spawn, the cascade attempts exactly the three candidates
    in order, appends exactly one failure line after each of the first two
    failed candidates (2 lines in total; the third failure is reported only
    via the overall result), and reports overall failure. -/
theorem connect_spice_linux_all_fail (sp : Nat) (stem : List Char) (ctx : Ctx)
    (h : ∀ c, ctx.env c = false) :
    connect_spice_linux sp stem ctx =
      (false,
        ["Remmina SPICE launch failed, trying spicy...",
         "spicy launch failed, trying remote-viewer..."],
        [⟨ctx.remote_app, ["--quiet", "-p", "spice", "spice://127.0.0.1:" ++ toString sp]⟩,
         ⟨"spicy", ["--title", String.mk stem, "-h", "127.0.0.1", "-p", toString sp]⟩,
         ⟨"remote-viewer", ["spice://127.0.0.1:" ++ toString sp]⟩]) ∧
    (connect_spice_linux sp stem ctx).2.1.length = 2 := by
  constructor
  · simp [connect_spice_linux, h]
  · simp [connect_spice_linux, h]

/-- C6 witness: the amended cascade behaviour at a concrete context where
    every spawn fails. -/
theorem connect_spice_linux_all_fail_witness :
    connect_spice_linux 5930 "ubuntu".toList ctxAllFail =
      (false,
        ["Remmina SPICE launch failed, trying spicy...",
         "spicy launch failed, trying remote-viewer..."],
        [⟨ctxAllFail.remote_app, ["--quiet", "-p", "spice", "spice://127.0.0.1:" ++ toString 5930]⟩,
         ⟨"spicy", ["--title", String.mk "ubuntu".toList, "-h", "127.0.0.1", "-p", toString 5930]⟩,
         ⟨"remote-viewer", ["spice://127.0.0.1:" ++ toString 5930]⟩]) ∧
    (connect_spice_linux 5930 "ubuntu".toList ctxAllFail).2.1.length = 2 :=
  connect_spice_linux_all_fail 5930 "ubuntu".toList ctxAllFail (fun _ => rfl)

/-! Claims about connect_vm and the per-platform cascades. -/

/-- C2: on every platform connect first resolves a profile; a resolved
    profile is launched through the generic client, a successful spawn ends
    the run with that single attempt and no protocol-specific step, and only
    a missing profile or a failed profile spawn falls through to the
    protocol/platform cascade (connect_rest). -/
theorem connect_vm_profile_preempts (ctx : Ctx) :
    (∀ p : List Char, resolve ctx = some p →
      ctx.env (profileCmd ctx.remote_app p) = true →
      connect_vm ctx =
        ConnectResult.done [profileFoundLog ctx p] [profileCmd ctx.remote_app p]) ∧
    (∀ p : List Char, resolve ctx = some p →
      ctx.env (profileCmd ctx.remote_app p) = false →
      connect_vm ctx =
        connect_rest ctx [profileFoundLog ctx p, profileFailLog]
          [profileCmd ctx.remote_app p]) ∧
    (resolve ctx = none → connect_vm ctx = connect_rest ctx [] []) := by
  refine ⟨?_, ?_, ?_⟩
  · intro p hres henv
    simp [connect_vm, hres, henv]
  · intro p hres henv
    simp [connect_vm, hres, henv]
  · intro hres
    simp [connect_vm, hres]

/-- A context in which the override profile resolves and every spawn
    succeeds. -/
def ctxProfileOk : Ctx :=
  { remote_app := "remmina", os_type := "linux", default_spice_port := 5930,
    vm_path := "/home/u/.quickemu/win11.conf", vm_stem? := some "win11".toList,
    vm_lines? := some [lineRdp5], overrides := [("win11".toList, profW)],
    remmina_entries := [], env := fun _ => true,
    portOpen := fun _ => false, meta? := none }

/-- C2 witness: with a resolved override profile and a succeeding spawn,
    connect makes exactly the one profile attempt. -/
theorem connect_vm_profile_preempts_witness :
    connect_vm ctxProfileOk =
      ConnectResult.done [profileFoundLog ctxProfileOk profW]
        [profileCmd ctxProfileOk.remote_app profW] :=
  (connect_vm_profile_preempts ctxProfileOk).1 profW (by decide) rfl

/-- The trace left by the top profile stage of connect_vm when it does not
    end the run: nothing without a resolved profile, and the profile-found
    line, failure line and profile attempt when the resolved profile failed
    to spawn. -/
def top_profile_stage (ctx : Ctx) : List String × List Cmd :=
  match resolve ctx with
  | some p => ([profileFoundLog ctx p, profileFailLog], [profileCmd ctx.remote_app p])
  | none => ([], [])

/-- The protocol cascade stage of connect_rest, followed on failure by the
    SPICE cascade at the default port. -/
theorem connect_rest_downgrade (ctx : Ctx) (stem : List Char) (pr : RemoteProtocol)
    (hp : Nat) (logs0 : List String) (atts0 : List Cmd)
    (hstem : ctx.vm_stem? = some stem)
    (hparse : parse_vm_config ctx.vm_lines? ctx.default_spice_port = ParseResult.ok pr)
    (hpr : pr = RemoteProtocol.Rdp hp ∨ pr = RemoteProtocol.Vnc hp)
    (hfail : (proto_cascade pr stem ctx).1 = false) :
    connect_rest ctx logs0 atts0 =
      ConnectResult.done
        (logs0 ++ (proto_cascade pr stem ctx).2.1 ++
          (spice_cascade ctx.default_spice_port stem ctx).2.1)
        (atts0 ++ (proto_cascade pr stem ctx).2.2 ++
          (spice_cascade ctx.default_spice_port stem ctx).2.2) := by
  rcases hpr with h | h <;> subst h <;>
    simp only [proto_cascade] at hfail ⊢ <;>
    simp [connect_rest, hstem, hparse, hfail]

/-- C3: for a VM classified as RDP or VNC whose whole protocol-specific
    cascade for the current platform fails to spawn (after the top profile
    stage did not end the run), connect appends the SPICE cascade for that
    platform at the configured default SPICE port. -/
theorem connect_vm_downgrades_to_spice (ctx : Ctx) (stem : List Char)
    (pr : RemoteProtocol) (hp : Nat)
    (hstem : ctx.vm_stem? = some stem)
    (hprof : resolve ctx = none ∨
      ∃ p : List Char, resolve ctx = some p ∧
        ctx.env (profileCmd ctx.remote_app p) = false)
    (hparse : parse_vm_config ctx.vm_lines? ctx.default_spice_port = ParseResult.ok pr)
    (hpr : pr = RemoteProtocol.Rdp hp ∨ pr = RemoteProtocol.Vnc hp)
    (hfail : (proto_cascade pr stem ctx).1 = false) :
    connect_vm ctx =
      ConnectResult.done
        ((top_profile_stage ctx).1 ++ (proto_cascade pr stem ctx).2.1 ++
          (spice_cascade ctx.default_spice_port stem ctx).2.1)
        ((top_profile_stage ctx).2 ++ (proto_cascade pr stem ctx).2.2 ++
          (spice_cascade ctx.default_spice_port stem ctx).2.2) := by
  rcases hprof with hres | ⟨p, hres, henv⟩
  · have h1 : connect_vm ctx = connect_rest ctx [] [] := by simp [connect_vm, hres]
    rw [h1, connect_rest_downgrade ctx stem pr hp [] [] hstem hparse hpr hfail]
    simp [top_profile_stage, hres]
  · have h1 : connect_vm ctx =
        connect_rest ctx [profileFoundLog ctx p, profileFailLog]
          [profileCmd ctx.remote_app p] := by
      simp [connect_vm, hres, henv]
    rw [h1, connect_rest_downgrade ctx stem pr hp _ _ hstem hparse hpr hfail]
    simp [top_profile_stage, hres]

/-- A marker line whose single mapping is host 13389, guest 3389. -/
def lineRdpW : List Char := "port_forwards=(\"13389:3389\")".toList

/-- A linux context classified RDP with no profile and no spawnable
    command. -/
def ctxDowngrade : Ctx :=
  { remote_app := "remmina", os_type := "linux", default_spice_port := 5930,
    vm_path := "/home/u/.quickemu/win11.conf", vm_stem? := some "win11".toList,
    vm_lines? := some [lineRdpW], overrides := [], remmina_entries := [],
    env := fun _ => false, portOpen := fun _ => false, meta? := none }

/-- C3 witness: the downgrade at a concrete linux RDP context where every
    spawn fails. -/
theorem connect_vm_downgrades_to_spice_witness :
    connect_vm ctxDowngrade =
      ConnectResult.done
        ((top_profile_stage ctxDowngrade).1 ++
          (proto_cascade (RemoteProtocol.Rdp 13389) "win11".toList ctxDowngrade).2.1 ++
          (spice_cascade ctxDowngrade.default_spice_port "win11".toList ctxDowngrade).2.1)
        ((top_profile_stage ctxDowngrade).2 ++
          (proto_cascade (RemoteProtocol.Rdp 13389) "win11".toList ctxDowngrade).2.2 ++
          (spice_cascade ctxDowngrade.default_spice_port "win11".toList ctxDowngrade).2.2) :=
  connect_vm_downgrades_to_spice ctxDowngrade "win11".toList
    (RemoteProtocol.Rdp 13389) 13389 rfl (Or.inl (by decide)) (by decide)
    (Or.inl rfl) (by decide)

/-- C10: on Linux, whenever a profile resolves, both the RDP and the VNC
    protocol cascades re-attempt the generic client with that profile as
    their first spawn, before any URL-based attempt. -/
theorem linux_cascades_reattempt_profile (hpR hpV : Nat) (ctx : Ctx) (p : List Char)
    (h : resolve ctx = some p) :
    (connect_rdp_linux hpR ctx).2.2.head? =
      some ⟨ctx.remote_app, ["--quiet", "-c", String.mk p]⟩ ∧
    (connect_vnc_linux hpV ctx).2.2.head? =
      some ⟨ctx.remote_app, ["--quiet", "-c", String.mk p]⟩ := by
  constructor
  · by_cases he : ctx.env ⟨ctx.remote_app, ["--quiet", "-c", String.mk p]⟩ <;>
      by_cases he2 : ctx.env ⟨ctx.remote_app,
        ["--quiet", "-p", "rdp", "rdp://127.0.0.1:" ++ toString hpR]⟩ <;>
      simp [connect_rdp_linux, connect_rdp_linux_rest, h, he, he2]
  · by_cases he : ctx.env ⟨ctx.remote_app, ["--quiet", "-c", String.mk p]⟩ <;>
      by_cases he2 : ctx.env ⟨ctx.remote_app,
        ["--quiet", "-p", "vnc", "vnc://127.0.0.1:" ++ toString hpV]⟩ <;>
      simp [connect_vnc_linux, connect_vnc_linux_rest, h, he, he2]

/-- A context in which the override profile resolves and every spawn
    fails. -/
def ctxProfileFail : Ctx :=
  { remote_app := "remmina", os_type := "linux", default_spice_port := 5930,
    vm_path := "/home/u/.quickemu/win11.conf", vm_stem? := some "win11".toList,
    vm_lines? := some [lineRdpW], overrides := [("win11".toList, profW)],
    remmina_entries := [], env := fun _ => false,
    portOpen := fun _ => false, meta? := none }

/-- C10 witness: both linux cascades put the profile attempt first at a
    concrete context with a resolved override, here one whose top-level
    profile spawn fails. -/
theorem linux_cascades_reattempt_profile_witness :
    (connect_rdp_linux 13389 ctxProfileFail).2.2.head? =
      some ⟨ctxProfileFail.remote_app, ["--quiet", "-c", String.mk profW]⟩ ∧
    (connect_vnc_linux 5900 ctxProfileFail).2.2.head? =
      some ⟨ctxProfileFail.remote_app, ["--quiet", "-c", String.mk profW]⟩ :=
  linux_cascades_reattempt_profile 13389 5900 ctxProfileFail profW (by decide)

end QuickCli
